import Mathlib

/-!
Shallow embedding of the `social-media-mcp` server
(`src/social_media_mcp/{server.py, utils.py, models.py}`) and verification
of its specification claims.

Modelling conventions:
* `datetime` instants are `Nat` seconds since the Unix epoch, UTC.
  `dt.replace(hour := h, minute := 0, second := 0, microsecond := 0)` becomes
  `(t / 86400) * 86400 + h * 3600`; `timedelta(days := 1)` is `+ 86400`.
* Python's `\w` character class is modelled on its ASCII fragment
  (letters, digits, underscore).  All universal theorems below are
  insensitive to the exact character predicate.
* Calls that leave the process (platform API clients, media encoding,
  ISO-8601 parsing/printing, `uuid4`) are oracle functions packaged in an
  `Env`; fallible ones return `Except String _`, mirroring Python
  exceptions and their messages.
* Python `float` arithmetic inside `schedule_content_calendar`
  (`interval = total_hours / len(posts)`; `int(i * interval)`) is modelled
  exactly: IEEE-754 binary64 round-to-nearest, ties to even, over
  mantissa/exponent pairs (the values involved are far from the
  overflow/subnormal ranges).
-/

namespace SMMcp

def secondsPerDay : Nat := 86400

def secondsPerHour : Nat := 3600

/-- `dt.replace(hour := h, minute := 0, second := 0, microsecond := 0)`
for an instant `t` lying in some UTC day. -/
def replaceHour (t : Nat) (h : Nat) : Nat :=
  (t / secondsPerDay) * secondsPerDay + h * secondsPerHour

/-- The UTC hour-of-day of an instant. -/
def hourOf (t : Nat) : Nat :=
  (t % secondsPerDay) / secondsPerHour

/-- `if scheduled_time < datetime.now(timezone.utc): scheduled_time += timedelta(days=1)`
(utils.py lines 381-383 and 400-402). -/
def rollIfPast (now t : Nat) : Nat :=
  if t < now then t + secondsPerDay else t

/-! ## Word/hashtag scanning (the `re` calls in utils.py) -/

/-- ASCII fragment of Python's regex class `\w`. -/
def wordChar (c : Char) : Bool :=
  c.isAlphanum || c = '_'

/-- Recursion core of `findTags`; the fuel argument (an upper bound on
the list length) makes the recursion structural, so that the kernel can
evaluate it on concrete inputs. -/
def findTagsAux : Nat → List Char → List String
  | 0, _ => []
  | _ + 1, [] => []
  | fuel + 1, c :: rest =>
    if c = '#' then
      let run := rest.takeWhile wordChar
      if run.isEmpty then findTagsAux fuel rest
      else String.mk ('#' :: run) :: findTagsAux fuel (rest.dropWhile wordChar)
    else findTagsAux fuel rest

/-- `re.findall(r'#\w+', content)` (utils.py line 183): left-to-right,
non-overlapping matches of a `#` followed by a maximal nonempty run of
word characters; each match is returned with its leading `#`. -/
def findTags (l : List Char) : List String :=
  findTagsAux l.length l

/-- Recursion core of `wordRuns`, fuelled like `findTagsAux`. -/
def wordRunsAux : Nat → List Char → List (List Char)
  | 0, _ => []
  | _ + 1, [] => []
  | fuel + 1, c :: rest =>
    if wordChar c then
      (c :: rest.takeWhile wordChar) :: wordRunsAux fuel (rest.dropWhile wordChar)
    else wordRunsAux fuel rest

/-- The maximal runs of word characters in a character list. -/
def wordRuns (l : List Char) : List (List Char) :=
  wordRunsAux l.length l

/-- `re.findall(r'\b\w{4,}\b', content.lower())` (utils.py line 188):
the maximal word-character runs of the lower-cased text of length ≥ 4.
(`str.lower` is modelled per character.) -/
def pyWords (content : String) : List String :=
  ((wordRuns (content.data.map Char.toLower)).filter (fun r => 4 ≤ r.length)).map
    (fun r => String.mk r)

/-- Recursion core of `pyDedup`, fuelled so that it is structural. -/
def pyDedupAux : Nat → List String → List String
  | 0, _ => []
  | _ + 1, [] => []
  | fuel + 1, x :: xs => x :: pyDedupAux fuel (xs.filter (fun y => y ≠ x))

/-- First-occurrence deduplication, the semantics of
`list(dict.fromkeys(hashtags))` (utils.py line 213). -/
def pyDedup (l : List String) : List String :=
  pyDedupAux l.length l

/-- `Counter(words).most_common(k)` keys: distinct words ordered by
frequency descending, ties by first occurrence (Python `Counter` is
insertion-ordered and `most_common` sorts stably). -/
def mostCommon (ws : List String) (k : Nat) : List String :=
  let uniq := pyDedup ws
  (((List.range (ws.length + 1)).reverse).flatMap
    (fun c => uniq.filter (fun w => ws.count w = c))).take k

/-- The literal hashtag texts of a content string, `#` stripped
(`tag[1:]`, utils.py line 184). -/
def litTags (content : String) : List String :=
  (findTags content.data).map (fun t => String.mk (t.data.drop 1))

/-- `generate_hashtags` (utils.py lines 173-215).  `include_trending` is
accepted and ignored, as in the source. -/
def generateHashtags (content : String) (platform : String)
    (max_count : Nat := 10) (include_trending : Bool := true) : List String :=
  let _ := include_trending
  let existing := litTags content
  let common_words := mostCommon (pyWords content) 5
  let capped : Nat × List String :=
    if platform = "instagram" then (Nat.min max_count 30, common_words)
    else if platform = "twitter" then (Nat.min max_count 3, common_words.take 2)
    else if platform = "linkedin" then (Nat.min max_count 5, common_words.take 3)
    else (max_count, [])
  (pyDedup (existing ++ capped.2)).take capped.1

/-- Character limits table of `validate_post_content`
(utils.py lines 339-346); `char_limits.get(platform, 5000)`. -/
def charLimit (platform : String) : Nat :=
  if platform = "twitter" then 280
  else if platform = "instagram" then 2200
  else if platform = "linkedin" then 3000
  else if platform = "facebook" then 63206
  else 5000

/-- `validate_post_content` (utils.py lines 333-356): returns
`(valid, optional message)`. -/
def validatePostContent (content : String) (platform : String) :
    Bool × Option String :=
  let limit := charLimit platform
  if content.length > limit then
    (false, some ("Content exceeds " ++ platform ++ " character limit"))
  else if platform = "instagram" && (findTags content.data).isEmpty then
    (true, some "Instagram posts typically perform better with hashtags")
  else (true, none)

/-- `calculate_engagement_rate` (utils.py lines 297-304). -/
def calculateEngagementRate (impressions engagements : Int) : ℚ :=
  if impressions = 0 then 0
  else ((engagements : ℚ) / (impressions : ℚ)) * 100

/-- Best posting hours table of `find_optimal_posting_time`
(utils.py lines 223-228). -/
def bestTimes (platform : String) : Option (List Nat) :=
  if platform = "twitter" then some [9, 12, 15, 17, 20]
  else if platform = "instagram" then some [11, 13, 17, 19]
  else if platform = "linkedin" then some [7, 10, 12, 17]
  else if platform = "facebook" then some [9, 13, 15, 19]
  else none

/-- `find_optimal_posting_time` (utils.py lines 218-252), with `now`
passed explicitly.  `sorted(all_times)` of the union-set is obtained by
filtering `range 24` (all table hours are < 24). -/
def findOptimalPostingTime (platforms : List String) (now : Nat) : Nat :=
  let all_times :=
    (List.range 24).filter
      (fun h => (platforms.filterMap bestTimes).flatten.contains h)
  if all_times.isEmpty then
    (now / secondsPerHour) * secondsPerHour + secondsPerHour
  else
    let current_hour := hourOf now
    let future_times := all_times.filter (fun t => current_hour < t)
    match future_times with
    | next_hour :: _ => replaceHour now next_hour
    | [] => replaceHour (now + secondsPerDay) (all_times.headD 0)

/-- Fixed peak hours of `schedule_content_calendar` (utils.py line 390). -/
def peakTimes : List Nat := [9, 12, 17, 19]

/-! ### Binary64 arithmetic (for the float computation of even_spacing)

`interval = total_hours / len(posts)` and `i * interval` are Python
`float` (IEEE-754 binary64) operations.  A nonnegative double is
represented exactly as a mantissa/exponent pair `(m, s)` denoting
`m * 2 ^ s`; each operation rounds its exact rational result to 53
significant bits, round to nearest, ties to even. -/

/-- Fuelled bit length: for positive `n`, `bitLen n = Nat.log2 n + 1`
(the fuel keeps the recursion structural so the kernel can evaluate). -/
def bitLenAux : Nat → Nat → Nat
  | 0, _ => 0
  | fuel + 1, n => if n = 0 then 0 else bitLenAux fuel (n / 2) + 1

/-- Bit length of a natural number. -/
def bitLen (n : Nat) : Nat := bitLenAux n n

/-- Is `2 ^ c ≤ num / den` (as exact rationals)? -/
def pow2LeFrac (c : Int) (num den : Nat) : Bool :=
  if 0 ≤ c then den * 2 ^ c.toNat ≤ num
  else den ≤ num * 2 ^ (-c).toNat

/-- The binary exponent `e` with `2^e ≤ num/den < 2^(e+1)`
(for `num, den ≥ 1`). -/
def floatExp (num den : Nat) : Int :=
  let c : Int := (bitLen num : Int) - (bitLen den : Int)
  if pow2LeFrac c num den then c else c - 1

/-- Round `(num/den) · 2^(-shift)` to the nearest integer, ties to even. -/
def roundMantissa (num den : Nat) (shift : Int) : Nat :=
  let p := if shift ≤ 0 then num * 2 ^ (-shift).toNat else num
  let q := if shift ≤ 0 then den else den * 2 ^ shift.toNat
  let d := p / q
  let r := p % q
  if 2 * r < q then d
  else if q < 2 * r then d + 1
  else if d % 2 = 0 then d else d + 1

/-- The binary64 double nearest to `num/den` (round to nearest, ties to
even), as a pair `(m, s)` denoting `m · 2^s`.  This is Python float
division `num / den` of two nonnegative ints. -/
def fl (num den : Nat) : Nat × Int :=
  if num = 0 ∨ den = 0 then (0, 0)
  else
    let s := floatExp num den - 52
    (roundMantissa num den s, s)

/-- Python `i * x` for an int `i` and a nonnegative double `x`: the exact
product, rounded back to binary64. -/
def flMulNat (i : Nat) (x : Nat × Int) : Nat × Int :=
  if 0 ≤ x.2 then fl (i * x.1 * 2 ^ x.2.toNat) 1
  else fl (i * x.1) (2 ^ (-x.2).toNat)

/-- Python `int(x)` for a nonnegative double `x` (truncation = floor). -/
def flToInt (x : Nat × Int) : Nat :=
  if 0 ≤ x.2 then x.1 * 2 ^ x.2.toNat else x.1 / 2 ^ (-x.2).toNat

/-- The hour the `even_spacing` branch computes for post `i` of `n`
(utils.py lines 368-376): `start_hour + int(i * interval)` with
`interval = (end_hour - start_hour) / n` in binary64 floats. -/
def evenSpacingHour (n i : Nat) : Nat :=
  9 + flToInt (flMulNat i (fl (20 - 9) n))

/-- The timestamp the `even_spacing` branch assigns to the post at
index `i` out of `n` (utils.py lines 366-386). -/
def evenSpacingSlot (now : Nat) (n i : Nat) : Nat :=
  rollIfPast now (replaceHour now (evenSpacingHour n i))

/-- The timestamp the `peak_times` branch assigns to the post at index
`i` (utils.py lines 388-410): cycle through `peakTimes`, roll a past
time to tomorrow, then add `i / 4` days when `i ≥ 4`. -/
def peakTimesSlot (now : Nat) (i : Nat) : Nat :=
  let base := rollIfPast now (replaceHour now (peakTimes.getD (i % peakTimes.length) 9))
  if peakTimes.length ≤ i then base + (i / peakTimes.length) * secondsPerDay
  else base

/-- `schedule_content_calendar` (utils.py lines 359-412); each post is
paired with the instant stored into its `scheduled_time` key.  Unknown
strategies return the empty list, as in the source. -/
def scheduleContentCalendar {α : Type} (posts : List α) (strategy : String)
    (now : Nat) : List (α × Nat) :=
  if strategy = "even_spacing" then
    if posts.length > 0 then
      posts.enum.map (fun ip => (ip.2, evenSpacingSlot now posts.length ip.1))
    else []
  else if strategy = "peak_times" then
    posts.enum.map (fun ip => (ip.2, peakTimesSlot now ip.1))
  else []

/-! ## Data model (models.py) and external-world oracles -/

/-- A JSON value, used for the dict payloads the server builds. -/
inductive JVal where
  | str (s : String)
  | num (n : Int)
  | bool (b : Bool)
  | null
  | arr (xs : List JVal)
  | obj (fields : List (String × JVal))

/-- Looking a key up in a JSON object; `none` on non-objects, matching
the `isinstance(data, dict) and key in data` guards. -/
def JVal.lookup (v : JVal) (k : String) : Option JVal :=
  match v with
  | .obj fields => fields.lookup k
  | _ => none

/-- A media item of a `create_post` request (`content["media"]` entry). -/
structure MediaIn where
  type : String
  path : String
  alt_text : Option String
deriving Repr, DecidableEq

/-- `models.MediaAsset` as built by `create_post` (type, optimized path,
alt text). -/
structure MediaAsset where
  type : String
  path : String
  alt_text : String
deriving Repr, DecidableEq

/-- `models.Post` (id, text, media, hashtags, platforms, scheduled time).
`mentions`, `location` and `metadata` are never set by the server and are
omitted. -/
structure Post where
  id : String
  text : String
  media : List MediaAsset
  hashtags : List String
  platforms : List String
  scheduled_time : Option Nat
deriving Repr, DecidableEq

/-- `models.PostResult` (the pydantic `timestamp` default is omitted). -/
structure PostResult where
  success : Bool
  platform : String
  post_id : Option String := none
  url : Option String := none
  error : Option String := none
deriving Repr, DecidableEq

/-- `models.ScheduledPost` (status is always "pending" here;
`created_at`/`updated_at` omitted). -/
structure ScheduledPost where
  id : String
  post : Post
  platform : String
  scheduled_time : Nat
deriving Repr, DecidableEq

/-- `models.Analytics`.  `metrics : Dict[MetricType, int]` is an ordered
association list; the remaining optional fields are kept abstractly. -/
structure Analytics where
  platform : String
  metrics : List (String × Int)
  date_range : Option (String × String) := none
  post_ids : Option (List String) := none

/-- `Analytics.dict()` (pydantic): the field names become the top-level
keys; the metric counts sit one level down, under `"metrics"`. -/
def Analytics.toDict (a : Analytics) : JVal :=
  .obj [("platform", .str a.platform),
        ("metrics", .obj (a.metrics.map (fun kv => (kv.1, JVal.num kv.2)))),
        ("date_range", match a.date_range with
          | some (s, e) => .obj [("start", .str s), ("end", .str e)]
          | none => .null),
        ("post_ids", match a.post_ids with
          | some ids => .arr (ids.map JVal.str)
          | none => .null),
        ("demographic_data", .null),
        ("top_content", .null)]

/-- One registered platform capability (`PlatformClient`), as an oracle:
each operation is an arbitrary but fixed function, `Except.error`
modelling a raised exception. -/
structure PlatformClient where
  create_post : Post → Except String PostResult
  get_analytics : String → Option (String × String) → Option (List String) →
    Except String Analytics
  get_trending : Option String → Option String → Except String JVal

/-- The world outside the dispatch coordinator: registered capabilities
(`self.platforms`), media encoding, ISO-8601 parsing/printing, `uuid4`
(as a stream indexed by how many ids have been drawn), and the clock. -/
structure Env where
  platforms : List (String × PlatformClient)
  optimizeImage : String → List String → Except String String
  optimizeVideo : String → List String → Except String String
  parseISO : String → Except String Nat
  isoformat : Nat → String
  uuid : Nat → String
  now : Nat

/-- `platform in self.platforms` / `self.platforms[platform]`. -/
def Env.client (env : Env) (platform : String) : Option PlatformClient :=
  env.platforms.lookup platform

/-- The server's mutable state: `self.scheduled_posts` plus the number of
`uuid4` values drawn so far. -/
structure ServerState where
  scheduled_posts : List ScheduledPost
  uuids_drawn : Nat

/-! ## create_post (server.py lines 310-404) -/

/-- `content` argument of `create_post` (`text` is required by the tool
schema; `media`/`hashtags` keys may be absent). -/
structure CreateContent where
  text : String
  media : Option (List MediaIn) := none
  hashtags : Option (List String) := none
deriving Repr, DecidableEq

/-- Arguments of `create_post`. -/
structure CreateArgs where
  platforms : List String
  content : CreateContent
  schedule : Option String := none
  optimize_timing : Bool := false
deriving Repr, DecidableEq

/-- The body of the media loop of `create_post` (lines 319-340): optimize
each entry, an `"image"` through `optimize_image`, a `"video"` through
`optimize_video` (anything else is skipped); a raised error aborts the
whole call. -/
def processMediaList (env : Env) (platforms : List String) :
    List MediaIn → Except String (List MediaAsset)
  | [] => .ok []
  | m :: ms =>
    if m.type = "image" then do
      let path ← env.optimizeImage m.path platforms
      let tail ← processMediaList env platforms ms
      .ok ({ type := "image", path := path, alt_text := m.alt_text.getD "" } :: tail)
    else if m.type = "video" then do
      let path ← env.optimizeVideo m.path platforms
      let tail ← processMediaList env platforms ms
      .ok ({ type := "video", path := path, alt_text := m.alt_text.getD "" } :: tail)
    else processMediaList env platforms ms

/-- The media-processing prologue of `create_post` (lines 317-340): the
`"media" in content` test, then the loop. -/
def processMedia (env : Env) (platforms : List String) :
    Option (List MediaIn) → Except String (List MediaAsset)
  | none => .ok []
  | some ms => processMediaList env platforms ms

/-- The members of the `PlatformType` enum (models.py lines 10-16). -/
def platformTypeValues : List String :=
  ["twitter", "linkedin", "instagram", "facebook", "tiktok"]

/-- The error `pydantic` raises when constructing `Post` with a
`platforms` value outside the `PlatformType` enum (models.py line 56);
the message is modelled. -/
def platformValidationError : String :=
  "ValidationError: 1 validation error for Post: platforms value is not a valid enumeration member"

/-- Pydantic validation of `Post.platforms : List[PlatformType]`,
performed by the `Post(...)` construction at server.py line 356: every
requested platform name must be a `PlatformType` value, else the
construction raises `ValidationError`. -/
def validatePlatforms (platforms : List String) : Except String Unit :=
  if platforms.all (fun p => platformTypeValues.contains p) then .ok ()
  else .error platformValidationError

/-- Hashtag defaulting (lines 342-348): generate from the text when the
`hashtags` key is absent or empty, using the first platform (or
`"twitter"` when the platform list is empty). -/
def effectiveHashtags (args : CreateArgs) : List String :=
  if (args.content.hashtags.getD []).isEmpty then
    generateHashtags args.content.text (args.platforms.headD "twitter") 10 true
  else args.content.hashtags.getD []

/-- Schedule-string resolution (lines 350-353): an explicit `schedule`
wins; otherwise `optimize_timing` derives one from
`find_optimal_posting_time`. -/
def resolveSchedule (env : Env) (args : CreateArgs) : Option String :=
  match args.schedule with
  | some s => some s
  | none =>
    if args.optimize_timing then
      some (env.isoformat (findOptimalPostingTime args.platforms env.now))
    else none

/-- `datetime.fromisoformat(schedule) if schedule else None` (line 361). -/
def parseOptSchedule (env : Env) : Option String → Except String (Option Nat)
  | none => .ok none
  | some s => (env.parseISO s).map some

/-- One value of the `results` dict of `create_post` (lines 365-395):
a schedule acknowledgment, an immediate `PostResult.dict()`, or a
`success: false / error` entry. -/
inductive PostEntry where
  | scheduledAck (scheduled_time : String)
  | posted (r : PostResult)
  | failure (error : String)
deriving Repr, DecidableEq

/-- Python dict assignment `d[k] = v`: overwrite in place if the key is
present, else append. -/
def dictInsert {α : Type} (d : List (String × α)) (k : String) (v : α) :
    List (String × α) :=
  if d.any (fun kv => kv.1 = k) then
    d.map (fun kv => if kv.1 = k then (k, v) else kv)
  else d ++ [(k, v)]

/-- Association-list lookup with propositional string equality. -/
def alookup {α : Type} (d : List (String × α)) (k : String) : Option α :=
  match d with
  | [] => none
  | kv :: rest => if kv.1 = k then some kv.2 else alookup rest k

/-- Accumulator of the platform loop of `create_post`. -/
structure LoopState where
  results : List (String × PostEntry)
  calendar : List ScheduledPost
  ctr : Nat

/-- One iteration of the platform loop (lines 366-395): unregistered
platforms get the `not configured` entry; with a schedule a
`ScheduledPost` is appended to the calendar; otherwise the capability is
invoked and an exception becomes a `success: false` entry. -/
def loopStep (env : Env) (post : Post) (sched : Option String)
    (st : LoopState) (platform : String) : LoopState :=
  match env.client platform with
  | none =>
    { st with results := (dictInsert st.results platform
        (.failure ("Platform " ++ platform ++ " not configured"))) }
  | some client =>
    match sched with
    | some s =>
      match env.parseISO s with
      | .ok t =>
        { results := dictInsert st.results platform (.scheduledAck s),
          calendar := st.calendar ++
            [{ id := env.uuid st.ctr, post := post, platform := platform,
               scheduled_time := t }],
          ctr := st.ctr + 1 }
      | .error e =>
        { st with results := dictInsert st.results platform (.failure e) }
    | none =>
      match client.create_post post with
      | .ok r => { st with results := dictInsert st.results platform (.posted r) }
      | .error e =>
        { st with results := dictInsert st.results platform (.failure e) }

/-- Response of `create_post` (lines 397-404). -/
structure CreateResp where
  results : List (String × PostEntry)
  text : String
  hashtags : List String
  media_count : Nat
deriving Repr, DecidableEq

/-- `SocialMediaMCPServer.create_post` (server.py lines 310-404).
`Except.error` models an uncaught exception escaping the method; the
`Post(...)` construction at line 356 first evaluates
`datetime.fromisoformat(schedule)` and then pydantic-validates
`platforms` against the `PlatformType` enum. -/
def createPost (env : Env) (st : ServerState) (args : CreateArgs) :
    Except String (CreateResp × ServerState) := do
  let assets ← processMedia env args.platforms args.content.media
  let hashtags := effectiveHashtags args
  let sched := resolveSchedule env args
  let ts ← parseOptSchedule env sched
  let _ ← validatePlatforms args.platforms
  let post : Post :=
    { id := env.uuid st.uuids_drawn, text := args.content.text,
      media := assets, hashtags := hashtags, platforms := args.platforms,
      scheduled_time := ts }
  let final := args.platforms.foldl (loopStep env post sched)
    ⟨[], st.scheduled_posts, st.uuids_drawn + 1⟩
  .ok (⟨final.results, post.text, post.hashtags, post.media.length⟩,
       ⟨final.calendar, final.ctr⟩)

/-! ## get_analytics (server.py lines 406-451) -/

/-- Arguments of `get_analytics`. -/
structure AnalyticsArgs where
  platforms : List String
  metric_type : String := "engagement"
  date_range : Option (String × String) := none
  post_ids : Option (List String) := none

/-- One `analytics_data` value: either `analytics.dict()` or an
`error` dict (lines 414-430). -/
def analyticsEntry (env : Env) (a : AnalyticsArgs) (platform : String) : JVal :=
  match env.client platform with
  | none => .obj [("error", .str ("Platform " ++ platform ++ " not configured"))]
  | some client =>
    match client.get_analytics a.metric_type a.date_range a.post_ids with
    | .ok analytics => analytics.toDict
    | .error e => .obj [("error", .str e)]

/-- `sum(data.get(key, 0) for data in values if isinstance(data, dict)
and key in data)` (lines 433-442). -/
def sumTopLevel (values : List JVal) (key : String) : Int :=
  values.foldl
    (fun acc d =>
      match d.lookup key with
      | some (.num n) => acc + n
      | some _ => acc
      | none => acc)
    0

/-- The `aggregated` block (lines 444-451). -/
structure Aggregated where
  total_impressions : Int
  total_engagement : Int
  engagement_rate : ℚ

/-- Response of `get_analytics`. -/
structure AnalyticsResp where
  platforms : List (String × JVal)
  aggregated : Aggregated

/-- `SocialMediaMCPServer.get_analytics` (lines 406-451).  The loop never
raises (capability errors are caught per platform). -/
def getAnalytics (env : Env) (a : AnalyticsArgs) : AnalyticsResp :=
  let analytics_data :=
    a.platforms.foldl
      (fun d platform => dictInsert d platform (analyticsEntry env a platform)) []
  let values := analytics_data.map (fun kv => kv.2)
  let total_impressions := sumTopLevel values "impressions"
  let total_engagement := sumTopLevel values "engagement"
  { platforms := analytics_data,
    aggregated :=
      { total_impressions := total_impressions,
        total_engagement := total_engagement,
        engagement_rate :=
          if total_impressions > 0 then
            (total_engagement : ℚ) / (total_impressions : ℚ)
          else 0 } }

/-! ## schedule_posts (server.py lines 453-478) -/

/-- Arguments of `schedule_posts`: a list of per-post `create_post`
argument payloads plus the spacing flag. -/
structure ScheduleArgs where
  posts : List CreateArgs
  optimize_spacing : Bool := false

/-- Response of `schedule_posts`. -/
structure ScheduleResp where
  scheduled_count : Nat
  results : List CreateResp

/-- The delegation loop (lines 471-473): each post payload goes through
`create_post`; an exception there propagates. -/
def schedulePostsLoop (env : Env) :
    List CreateArgs → ServerState → Except String (List CreateResp × ServerState)
  | [], st => .ok ([], st)
  | a :: rest, st => do
    let (r, st') ← createPost env st a
    let (rs, st'') ← schedulePostsLoop env rest st'
    .ok (r :: rs, st'')

/-- `SocialMediaMCPServer.schedule_posts` (lines 453-478).  server.py
line 7 imports only `datetime` and `timezone` from `datetime`, so the
spacing branch's reference to `timedelta` (line 468) raises a `NameError`
on its first loop iteration, before any timestamp is assigned. -/
def schedulePosts (env : Env) (st : ServerState) (args : ScheduleArgs) :
    Except String (ScheduleResp × ServerState) :=
  if args.optimize_spacing && args.posts.length > 1 then
    .error "NameError: name timedelta is not defined"
  else do
    let (rs, st') ← schedulePostsLoop env args.posts st
    .ok (⟨rs.length, rs⟩, st')

/-! ## The remaining tools (needed by `handle_call_tool`) -/

/-- Arguments of `generate_hashtags` (the tool). -/
structure HashtagArgs where
  content : String
  platform : String := "twitter"
  max_hashtags : Nat := 10
  include_trending : Bool := true

/-- Response of `generate_hashtags` (server.py lines 480-498). -/
structure HashtagResp where
  hashtags : List String
  count : Nat
  platform : String
deriving Repr, DecidableEq

/-- `SocialMediaMCPServer.generate_hashtags_tool` (lines 480-498). -/
def generateHashtagsTool (a : HashtagArgs) : HashtagResp :=
  let hashtags := generateHashtags a.content a.platform a.max_hashtags a.include_trending
  ⟨hashtags, hashtags.length, a.platform⟩

/-- Arguments of `optimize_media`. -/
structure OptimizeMediaArgs where
  media_path : String
  platforms : List String
  media_type : String

/-- Response of `optimize_media` (lines 500-528): per-platform
`path`/`success` or `success: false`/`error`. -/
structure MediaResp where
  original_path : String
  optimized : List (String × Except String String)

/-- `SocialMediaMCPServer.optimize_media` (lines 500-528): per-platform
try/except, failures reported per entry. -/
def optimizeMediaTool (env : Env) (a : OptimizeMediaArgs) : MediaResp :=
  { original_path := a.media_path,
    optimized :=
      a.platforms.foldl
        (fun d platform =>
          let r := if a.media_type = "image" then env.optimizeImage a.media_path [platform]
                   else env.optimizeVideo a.media_path [platform]
          dictInsert d platform r)
        [] }

/-- Arguments of `get_trending`. -/
structure TrendingArgs where
  platforms : List String
  category : Option String := none
  location : Option String := none

/-- Response of `get_trending` (lines 530-558). -/
structure TrendingResp where
  platforms : List (String × JVal)
  timestamp : Nat

/-- `SocialMediaMCPServer.get_trending` (lines 530-558). -/
def getTrending (env : Env) (a : TrendingArgs) : TrendingResp :=
  { platforms :=
      a.platforms.foldl
        (fun d platform =>
          let entry : JVal :=
            match env.client platform with
            | none => .obj [("error", .str ("Platform " ++ platform ++ " not configured"))]
            | some client =>
              match client.get_trending a.category a.location with
              | .ok v => v
              | .error e => .obj [("error", .str e)]
          dictInsert d platform entry)
        [],
    timestamp := env.now }

/-- Arguments of `manage_calendar`. -/
structure CalendarArgs where
  action : String
  date_range : Option (String × String) := none
  post_ids : List String := []

/-- Response payloads of `manage_calendar` (lines 560-617). -/
inductive CalendarResp where
  | view (scheduled_posts : List JVal) (total_count : Nat)
  | delete (deleted_count : Nat)
  | reschedule (message : String)
  | completed (action : String)

/-- The per-post summary dict of the `view` action (lines 578-588);
`post.post.text[:100] + "..."` is a codepoint slice. -/
def calendarViewEntry (sp : ScheduledPost) : JVal :=
  .obj [("id", .str sp.id),
        ("platform", .str sp.platform),
        ("scheduled_time", .num (sp.scheduled_time : Int)),
        ("content", .str (String.mk (sp.post.text.data.take 100) ++ "...")),
        ("media_count", .num (sp.post.media.length : Int)),
        ("hashtags", .arr (sp.post.hashtags.map JVal.str))]

/-- `SocialMediaMCPServer.manage_calendar` (lines 560-617).  The `view`
date parsing (`datetime.fromisoformat`, lines 570-571) can raise; the
`delete` count increments per requested id whether or not it matched. -/
def manageCalendar (env : Env) (st : ServerState) (a : CalendarArgs) :
    Except String (CalendarResp × ServerState) :=
  if a.action = "view" then do
    let filtered ←
      match a.date_range with
      | none => .ok st.scheduled_posts
      | some (s, e) => do
        let start_date ← env.parseISO s
        let end_date ← env.parseISO e
        .ok (st.scheduled_posts.filter
          (fun p => start_date ≤ p.scheduled_time && p.scheduled_time ≤ end_date))
    .ok (.view (filtered.map calendarViewEntry) filtered.length, st)
  else if a.action = "delete" then
    let final :=
      a.post_ids.foldl
        (fun acc pid =>
          (acc.1.filter (fun p => p.id ≠ pid), acc.2 + 1))
        (st.scheduled_posts, 0)
    .ok (.delete final.2, { st with scheduled_posts := final.1 })
  else if a.action = "reschedule" then
    .ok (.reschedule "Rescheduling functionality to be implemented", st)
  else
    .ok (.completed a.action, st)

/-! ## handle_call_tool (server.py lines 271-308) -/

/-- The structured argument payload of a tool invocation, projected onto
the fields the seven tools read.  A `none` in a required field models the
key being absent from the JSON object (`args[...]` then raises
`KeyError`).  `content` is an object for `create_post` and a string for
`generate_hashtags`. -/
inductive ContentArg where
  | obj (c : CreateContent)
  | str (s : String)

/-- Raw tool arguments. -/
structure RawArgs where
  platforms : Option (List String) := none
  content : Option ContentArg := none
  schedule : Option String := none
  optimize_timing : Option Bool := none
  metric_type : Option String := none
  date_range : Option (String × String) := none
  post_ids : Option (List String) := none
  posts : Option (List CreateArgs) := none
  optimize_spacing : Option Bool := none
  platform : Option String := none
  max_hashtags : Option Nat := none
  include_trending : Option Bool := none
  media_path : Option String := none
  media_type : Option String := none
  category : Option String := none
  location : Option String := none
  action : Option String := none

/-- `args[k]` for a required key. -/
def requireArg {α : Type} (k : String) : Option α → Except String α
  | some v => .ok v
  | none => .error ("KeyError: " ++ k)

/-- The result value a successful tool call serializes. -/
inductive ToolValue where
  | createPost (r : CreateResp)
  | analytics (r : AnalyticsResp)
  | schedule (r : ScheduleResp)
  | hashtags (r : HashtagResp)
  | media (r : MediaResp)
  | trending (r : TrendingResp)
  | calendar (r : CalendarResp)

/-- The `try` body of `handle_call_tool` (lines 277-293): dispatch on the
tool name, an unknown name raising `ValueError`. -/
def callToolInner (env : Env) (st : ServerState) (name : String)
    (raw : RawArgs) : Except String (ToolValue × ServerState) :=
  if name = "create_post" then do
    let platforms ← requireArg "platforms" raw.platforms
    let content ←
      match raw.content with
      | some (.obj c) => .ok c
      | some (.str _) => .error "TypeError: string indices must be integers"
      | none => .error "KeyError: content"
    let (r, st') ← createPost env st
      { platforms := platforms, content := content, schedule := raw.schedule,
        optimize_timing := raw.optimize_timing.getD false }
    .ok (.createPost r, st')
  else if name = "get_analytics" then do
    let platforms ← requireArg "platforms" raw.platforms
    .ok (.analytics (getAnalytics env
      { platforms := platforms, metric_type := raw.metric_type.getD "engagement",
        date_range := raw.date_range, post_ids := raw.post_ids }), st)
  else if name = "schedule_posts" then do
    let posts ← requireArg "posts" raw.posts
    let (r, st') ← schedulePosts env st
      { posts := posts, optimize_spacing := raw.optimize_spacing.getD false }
    .ok (.schedule r, st')
  else if name = "generate_hashtags" then do
    let content ←
      match raw.content with
      | some (.str s) => .ok s
      | some (.obj _) => .error "TypeError: expected string or bytes-like object"
      | none => .error "KeyError: content"
    .ok (.hashtags (generateHashtagsTool
      { content := content, platform := raw.platform.getD "twitter",
        max_hashtags := raw.max_hashtags.getD 10,
        include_trending := raw.include_trending.getD true }), st)
  else if name = "optimize_media" then do
    let media_path ← requireArg "media_path" raw.media_path
    let platforms ← requireArg "platforms" raw.platforms
    let media_type ← requireArg "media_type" raw.media_type
    .ok (.media (optimizeMediaTool env
      { media_path := media_path, platforms := platforms,
        media_type := media_type }), st)
  else if name = "get_trending" then do
    let platforms ← requireArg "platforms" raw.platforms
    .ok (.trending (getTrending env
      { platforms := platforms, category := raw.category,
        location := raw.location }), st)
  else if name = "manage_calendar" then do
    let action ← requireArg "action" raw.action
    let (r, st') ← manageCalendar env st
      { action := action, date_range := raw.date_range,
        post_ids := raw.post_ids.getD [] }
    .ok (.calendar r, st')
  else .error ("Unknown tool: " ++ name)

/-- One returned `TextContent` item: either the JSON dump of a result
value or the JSON object with exactly the fields `error` and `tool`
(lines 295-308). -/
inductive TextItem where
  | payload (v : ToolValue)
  | errObj (error : String) (tool : String)

/-- `SocialMediaMCPServer.handle_call_tool` (lines 271-308): the whole
body is wrapped in `try/except Exception`. -/
def handleCallTool (env : Env) (st : ServerState) (name : String)
    (raw : RawArgs) : List TextItem :=
  match callToolInner env st name raw with
  | .ok (v, _) => [.payload v]
  | .error e => [.errObj e name]

/-- The `results` entry the platform loop of `create_post` assigns to a
platform, as a standalone value (used to state per-platform independence
of the loop). -/
def entryFor (env : Env) (post : Post) (sched : Option String)
    (platform : String) : PostEntry :=
  match env.client platform with
  | none => .failure ("Platform " ++ platform ++ " not configured")
  | some client =>
    match sched with
    | some s =>
      match env.parseISO s with
      | .ok _ => .scheduledAck s
      | .error e => .failure e
    | none =>
      match client.create_post post with
      | .ok r => .posted r
      | .error e => .failure e

/-! ## Concrete oracle instantiations (for witnesses and counterexamples) -/

/-- A capability whose post operation always succeeds. -/
def nullClient : PlatformClient :=
  { create_post := fun _ =>
      .ok { success := true, platform := "twitter", post_id := some "1" },
    get_analytics := fun _ _ _ => .error "analytics unavailable",
    get_trending := fun _ _ => .error "trends unavailable" }

/-- A capability whose analytics report 1000 impressions and
50 engagement. -/
def analyticsClient : PlatformClient :=
  { create_post := fun _ =>
      .ok { success := true, platform := "twitter", post_id := some "1" },
    get_analytics := fun _ _ _ =>
      .ok { platform := "twitter",
            metrics := [("impressions", 1000), ("engagement", 50)] },
    get_trending := fun _ _ => .error "trends unavailable" }

/-- A base world with no registered platforms; the lone parseable
schedule string is `"2025-01-01T09:00:00"`. -/
def baseEnv : Env :=
  { platforms := [],
    optimizeImage := fun _ _ => .ok "optimized.jpg",
    optimizeVideo := fun _ _ => .ok "optimized.mp4",
    parseISO := fun s =>
      if s = "2025-01-01T09:00:00" then .ok 1735722000
      else .error "Invalid isoformat string",
    isoformat := fun _ => "2025-01-01T09:00:00",
    uuid := fun _ => "id",
    now := 1735720000 }

/-- The base world with Twitter registered. -/
def envTwitter : Env := { baseEnv with platforms := [("twitter", nullClient)] }

/-- The base world with Twitter's analytics capability registered. -/
def envAnalytics : Env :=
  { baseEnv with platforms := [("twitter", analyticsClient)] }

/-- The base world where image optimization raises. -/
def envImgFail : Env :=
  { baseEnv with
      optimizeImage := fun _ _ => .error "Image optimization failed: unreadable file" }

/-- An empty calendar. -/
def st0 : ServerState := { scheduled_posts := [], uuids_drawn := 0 }

/-- A 281-character text, one over Twitter's limit. -/
def longText : String := String.mk (List.replicate 281 'a')

/-- An over-limit scheduled Twitter post request. -/
def overlongArgs : CreateArgs :=
  { platforms := ["twitter"],
    content := { text := longText, hashtags := some ["tag"] },
    schedule := some "2025-01-01T09:00:00" }

/-- The `Post` object `create_post` builds (line 356), given the
processed media and the parsed schedule. -/
def builtPost (env : Env) (st : ServerState) (args : CreateArgs)
    (assets : List MediaAsset) (ts : Option Nat) : Post :=
  { id := env.uuid st.uuids_drawn, text := args.content.text,
    media := assets, hashtags := effectiveHashtags args,
    platforms := args.platforms, scheduled_time := ts }

/-- The final accumulator of the platform loop of `create_post`. -/
def loopRun (env : Env) (st : ServerState) (args : CreateArgs)
    (assets : List MediaAsset) (ts : Option Nat) : LoopState :=
  args.platforms.foldl
    (loopStep env (builtPost env st args assets ts) (resolveSchedule env args))
    ⟨[], st.scheduled_posts, st.uuids_drawn + 1⟩

/-- A `create_post` request naming only the unconfigured platform
`"nonexistent"`. -/
def nonexistentArgs : CreateArgs :=
  { platforms := ["nonexistent"], content := { text := "hi" } }

/-- A `create_post` request naming only `"tiktok"`: a valid
`PlatformType` value for which `initialize` never registers a
capability. -/
def tiktokArgs : CreateArgs :=
  { platforms := ["tiktok"], content := { text := "hi" } }

/-- A scheduled post request naming configured Twitter and
valid-but-unconfigurable TikTok, with explicit hashtags. -/
def scheduledArgs : CreateArgs :=
  { platforms := ["twitter", "tiktok"],
    content := { text := "hi", hashtags := some ["tag"] },
    schedule := some "2025-01-01T09:00:00" }

/-! ## Lemmas about the scheduling arithmetic -/

theorem hourOf_rollIfPast_replaceHour (now : Nat) {h : Nat} (hh : h < 24) :
    hourOf (rollIfPast now (replaceHour now h)) = h := by
  simp only [hourOf, rollIfPast, replaceHour, secondsPerDay, secondsPerHour]
  split_ifs <;> omega

theorem le_rollIfPast_replaceHour (now : Nat) (h : Nat) :
    now ≤ rollIfPast now (replaceHour now h) := by
  simp only [rollIfPast, replaceHour, secondsPerDay, secondsPerHour]
  split_ifs <;> omega

theorem hourOf_add_day (t : Nat) : hourOf (t + secondsPerDay) = hourOf t := by
  simp only [hourOf, secondsPerDay, secondsPerHour]
  omega

theorem rollIfPast_replaceHour_ne (now : Nat) {h1 h2 : Nat}
    (H1 : h1 < 24) (H2 : h2 < 24) (hne : h1 ≠ h2) :
    rollIfPast now (replaceHour now h1) ≠ rollIfPast now (replaceHour now h2) := by
  simp only [rollIfPast, replaceHour, secondsPerDay, secondsPerHour]
  split_ifs <;> omega

/-- Projecting the assigned timestamps out of the enumerate-style loop. -/
theorem snd_enum_map {α β : Type} (posts : List α) (f : Nat → β) :
    (posts.enum.map (fun ip => (ip.2, f ip.1))).map Prod.snd =
      (List.range posts.length).map f := by
  rw [List.map_map]
  show posts.enum.map ((fun ip : Nat × α => f ip.1)) = _
  rw [show (fun ip : Nat × α => f ip.1) = f ∘ Prod.fst from rfl, ← List.map_map,
    List.enum_map_fst]

theorem peakTimesSlot_lt4 (now : Nat) {i : Nat} (hi : i < 4) :
    peakTimesSlot now i = rollIfPast now (replaceHour now (peakTimes.getD i 9)) := by
  unfold peakTimesSlot
  have hlen : peakTimes.length = 4 := rfl
  rw [hlen, Nat.mod_eq_of_lt hi, if_neg (by omega)]

theorem peakTimesSlot_ge4 (now : Nat) {i : Nat} (hi : 4 ≤ i) :
    peakTimesSlot now i =
      rollIfPast now (replaceHour now (peakTimes.getD (i % 4) 9)) +
        (i / 4) * secondsPerDay := by
  unfold peakTimesSlot
  have hlen : peakTimes.length = 4 := rfl
  rw [hlen, if_pos hi]

/-- **C7.**  `schedule_content_calendar` with strategy `peak_times` on 5
posts: every assigned hour is drawn from {9, 12, 17, 19} (post `i`
getting the hour at index `i mod 4` plus `i / 4` whole days), no
timestamp is in the past relative to the invocation time, and the 5th
post's timestamp is exactly one day after the 1st post's. -/
theorem peak_times_schedule_properties {α : Type} (now : Nat) (posts : List α)
    (h5 : posts.length = 5) :
    (∀ t ∈ (scheduleContentCalendar posts "peak_times" now).map Prod.snd,
        hourOf t ∈ peakTimes ∧ now ≤ t) ∧
    ((scheduleContentCalendar posts "peak_times" now).map Prod.snd).getD 4 0 =
      ((scheduleContentCalendar posts "peak_times" now).map Prod.snd).getD 0 0 +
        secondsPerDay ∧
    (∀ i, i < 5 →
      hourOf (((scheduleContentCalendar posts "peak_times" now).map Prod.snd).getD i 0) =
        peakTimes.getD (i % 4) 9) := by
  have hts : (scheduleContentCalendar posts "peak_times" now).map Prod.snd =
      [peakTimesSlot now 0, peakTimesSlot now 1, peakTimesSlot now 2,
       peakTimesSlot now 3, peakTimesSlot now 4] := by
    unfold scheduleContentCalendar
    rw [if_neg (by decide), if_pos (by decide), snd_enum_map, h5]
    rfl
  have h24 : ∀ h ∈ peakTimes, h < 24 := by decide
  have hslot : ∀ i, i < 5 →
      hourOf (peakTimesSlot now i) = peakTimes.getD (i % 4) 9 := by
    intro i hi
    interval_cases i
    · rw [peakTimesSlot_lt4 now (by omega)]
      exact hourOf_rollIfPast_replaceHour now (by decide)
    · rw [peakTimesSlot_lt4 now (by omega)]
      exact hourOf_rollIfPast_replaceHour now (by decide)
    · rw [peakTimesSlot_lt4 now (by omega)]
      exact hourOf_rollIfPast_replaceHour now (by decide)
    · rw [peakTimesSlot_lt4 now (by omega)]
      exact hourOf_rollIfPast_replaceHour now (by decide)
    · rw [peakTimesSlot_ge4 now (by omega)]
      show hourOf (_ + (4 / 4) * secondsPerDay) = _
      rw [show (4 / 4) * secondsPerDay = secondsPerDay from rfl, hourOf_add_day]
      exact hourOf_rollIfPast_replaceHour now (by decide)
  refine ⟨?_, ?_, ?_⟩
  · intro t ht
    rw [hts] at ht
    have hle : ∀ i, i < 5 → now ≤ peakTimesSlot now i := by
      intro i hi
      interval_cases i
      · rw [peakTimesSlot_lt4 now (by omega)]; exact le_rollIfPast_replaceHour ..
      · rw [peakTimesSlot_lt4 now (by omega)]; exact le_rollIfPast_replaceHour ..
      · rw [peakTimesSlot_lt4 now (by omega)]; exact le_rollIfPast_replaceHour ..
      · rw [peakTimesSlot_lt4 now (by omega)]; exact le_rollIfPast_replaceHour ..
      · rw [peakTimesSlot_ge4 now (by omega)]
        exact le_trans (le_rollIfPast_replaceHour ..) (Nat.le_add_right ..)
    simp only [List.mem_cons, List.not_mem_nil, or_false] at ht
    rcases ht with rfl | rfl | rfl | rfl | rfl
    · exact ⟨by rw [hslot 0 (by omega)]; decide, hle 0 (by omega)⟩
    · exact ⟨by rw [hslot 1 (by omega)]; decide, hle 1 (by omega)⟩
    · exact ⟨by rw [hslot 2 (by omega)]; decide, hle 2 (by omega)⟩
    · exact ⟨by rw [hslot 3 (by omega)]; decide, hle 3 (by omega)⟩
    · exact ⟨by rw [hslot 4 (by omega)]; decide, hle 4 (by omega)⟩
  · rw [hts]
    show peakTimesSlot now 4 = peakTimesSlot now 0 + secondsPerDay
    rw [peakTimesSlot_ge4 now (by omega), peakTimesSlot_lt4 now (by omega)]
    rfl
  · intro i hi
    rw [hts]
    interval_cases i
    · exact hslot 0 (by omega)
    · exact hslot 1 (by omega)
    · exact hslot 2 (by omega)
    · exact hslot 3 (by omega)
    · exact hslot 4 (by omega)

/-- Witness for C7 at a concrete invocation. -/
theorem peak_times_schedule_properties_witness :
    ((List.replicate 5 0).length = 5) ∧
    ((∀ t ∈ (scheduleContentCalendar (List.replicate 5 0) "peak_times" 40000).map Prod.snd,
        hourOf t ∈ peakTimes ∧ 40000 ≤ t) ∧
    ((scheduleContentCalendar (List.replicate 5 0) "peak_times" 40000).map Prod.snd).getD 4 0 =
      ((scheduleContentCalendar (List.replicate 5 0) "peak_times" 40000).map Prod.snd).getD 0 0 +
        secondsPerDay ∧
    (∀ i, i < 5 →
      hourOf (((scheduleContentCalendar (List.replicate 5 0) "peak_times" 40000).map Prod.snd).getD i 0) =
        peakTimes.getD (i % 4) 9)) :=
  ⟨by decide, peak_times_schedule_properties 40000 (List.replicate 5 0) (by decide)⟩

/-- Counterexample for C8: the program computes the hour in binary64
floats, `9 + int(i * (11 / n))`, which deviates from the claim's exact
formula `9 + floor(i * 11 / n)`: at `n = 539`, `i = 49` the float
product is `0.9999999999999999`, so the code assigns hour 9 while the
formula gives 10. -/
theorem even_spacing_float_deviates :
    evenSpacingHour 539 49 = 9 ∧
    9 + (49 * (20 - 9)) / 539 = 10 ∧
    hourOf (evenSpacingSlot 0 539 49) = 9 :=
  ⟨by decide, by decide, by decide⟩

/-- **C8 (amended).**  The `even_spacing` hour is
`9 + int(i * ((20 - 9) / N))` in binary64 floating point, which for
`N = 7` agrees with the exact formula `9 + ⌊i · 11 / 7⌋`; 7 posts get
pairwise distinct timestamps, each with hour in `[9, 20]`, rolled one
day forward when already past. -/
theorem even_spacing_schedule_properties {α : Type} (now : Nat) :
    (∀ i, i < 7 → evenSpacingHour 7 i = 9 + (i * (20 - 9)) / 7) ∧
    (∀ (posts : List α), posts.length = 7 →
      ((scheduleContentCalendar posts "even_spacing" now).map Prod.snd).Nodup ∧
      (∀ t ∈ (scheduleContentCalendar posts "even_spacing" now).map Prod.snd,
        9 ≤ hourOf t ∧ hourOf t ≤ 20)) := by
  refine ⟨by decide, ?_⟩
  intro posts h7
  have hhs : ∀ h ∈ ([9, 10, 12, 13, 15, 16, 18] : List Nat),
      h < 24 ∧ 9 ≤ h ∧ h ≤ 20 := by decide
  have hts : (scheduleContentCalendar posts "even_spacing" now).map Prod.snd =
      ([9, 10, 12, 13, 15, 16, 18] : List Nat).map
        (fun h => rollIfPast now (replaceHour now h)) := by
    unfold scheduleContentCalendar
    rw [if_pos (by decide), if_pos (by rw [h7]; decide), snd_enum_map, h7]
    simp only [List.range_succ, List.range_zero, List.map_append, List.map_cons,
      List.map_nil, List.nil_append, List.cons_append, evenSpacingSlot,
      show evenSpacingHour 7 0 = 9 from by decide,
      show evenSpacingHour 7 1 = 10 from by decide,
      show evenSpacingHour 7 2 = 12 from by decide,
      show evenSpacingHour 7 3 = 13 from by decide,
      show evenSpacingHour 7 4 = 15 from by decide,
      show evenSpacingHour 7 5 = 16 from by decide,
      show evenSpacingHour 7 6 = 18 from by decide]
  refine ⟨?_, ?_⟩
  · rw [hts]
    refine List.Nodup.map_on ?_ (by decide)
    intro x hx y hy hxy
    by_contra hne'
    exact rollIfPast_replaceHour_ne now (hhs x hx).1 (hhs y hy).1 hne' hxy
  · intro t ht
    rw [hts] at ht
    simp only [List.mem_map] at ht
    obtain ⟨h, hh, rfl⟩ := ht
    rw [hourOf_rollIfPast_replaceHour now (hhs h hh).1]
    exact ⟨(hhs h hh).2.1, (hhs h hh).2.2⟩

/-- Witness for the amended C8 at a concrete invocation. -/
theorem even_spacing_schedule_properties_witness :
    (3 < 7 ∧ evenSpacingHour 7 3 = 9 + (3 * (20 - 9)) / 7) ∧
    ((List.replicate 7 0 : List Nat).length = 7) ∧
    ((scheduleContentCalendar (List.replicate 7 0 : List Nat) "even_spacing"
        40000).map Prod.snd).Nodup ∧
    (∀ t ∈ (scheduleContentCalendar (List.replicate 7 0 : List Nat)
        "even_spacing" 40000).map Prod.snd,
      9 ≤ hourOf t ∧ hourOf t ≤ 20) :=
  ⟨⟨by decide,
    (even_spacing_schedule_properties (α := Nat) 40000).1 3 (by decide)⟩,
   by decide,
   ((even_spacing_schedule_properties 40000).2 (List.replicate 7 0)
     (by decide)).1,
   ((even_spacing_schedule_properties 40000).2 (List.replicate 7 0)
     (by decide)).2⟩

/-! ## Lemmas about first-occurrence deduplication -/

theorem pyDedupAux_congr : ∀ {fuel fuel' : Nat} {l : List String},
    l.length ≤ fuel → l.length ≤ fuel' → pyDedupAux fuel l = pyDedupAux fuel' l := by
  intro fuel
  induction fuel with
  | zero =>
    intro fuel' l h h'
    have : l = [] := List.length_eq_zero.mp (Nat.le_zero.mp h)
    subst this
    cases fuel' <;> rfl
  | succ n ih =>
    intro fuel' l h h'
    cases l with
    | nil => cases fuel' <;> rfl
    | cons x xs =>
      cases fuel' with
      | zero => simp at h'
      | succ m =>
        show x :: pyDedupAux n _ = x :: pyDedupAux m _
        have hxs : xs.length ≤ n := by simpa using h
        have hxs' : xs.length ≤ m := by simpa using h'
        congr 1
        exact ih (le_trans (List.length_filter_le _ _) hxs)
          (le_trans (List.length_filter_le _ _) hxs')

theorem pyDedup_cons (x : String) (xs : List String) :
    pyDedup (x :: xs) = x :: pyDedup (xs.filter (fun y => y ≠ x)) := by
  show x :: pyDedupAux xs.length (xs.filter (fun y => y ≠ x)) = _
  congr 1
  exact pyDedupAux_congr (List.length_filter_le _ _) le_rfl

theorem mem_pyDedup : ∀ (l : List String) (a : String), a ∈ pyDedup l ↔ a ∈ l := by
  have key : ∀ (n : Nat) (l : List String), l.length = n →
      ∀ a, a ∈ pyDedup l ↔ a ∈ l := by
    intro n
    induction n using Nat.strong_induction_on with
    | _ n ih =>
    intro l hl a
    cases l with
    | nil => simp [pyDedup, pyDedupAux]
    | cons x xs =>
      rw [pyDedup_cons]
      have hlt : (xs.filter (fun y => y ≠ x)).length < n := by
        have := List.length_filter_le (fun y => y ≠ x) xs
        simp only [List.length_cons] at hl
        omega
      have hmem := ih _ hlt (xs.filter (fun y => y ≠ x)) rfl a
      rw [List.mem_cons, List.mem_cons, hmem, List.mem_filter]
      by_cases hax : a = x <;> simp [hax]
  intro l a
  exact key l.length l rfl a

theorem nodup_pyDedup : ∀ (l : List String), (pyDedup l).Nodup := by
  have key : ∀ (n : Nat) (l : List String), l.length = n → (pyDedup l).Nodup := by
    intro n
    induction n using Nat.strong_induction_on with
    | _ n ih =>
    intro l hl
    cases l with
    | nil => simp [pyDedup, pyDedupAux]
    | cons x xs =>
      rw [pyDedup_cons]
      have hlt : (xs.filter (fun y => y ≠ x)).length < n := by
        have := List.length_filter_le (fun y => y ≠ x) xs
        simp only [List.length_cons] at hl
        omega
      refine List.nodup_cons.mpr ⟨?_, ih _ hlt _ rfl⟩
      intro hx
      have := (mem_pyDedup _ _).mp hx
      rw [List.mem_filter] at this
      simp at this
  intro l
  exact key l.length l rfl

theorem pyDedup_append : ∀ (l r : List String),
    pyDedup (l ++ r) = pyDedup l ++ pyDedup (r.filter (fun y => y ∉ l)) := by
  have key : ∀ (n : Nat) (l : List String), l.length = n → ∀ (r : List String),
      pyDedup (l ++ r) = pyDedup l ++ pyDedup (r.filter (fun y => y ∉ l)) := by
    intro n
    induction n using Nat.strong_induction_on with
    | _ n ih =>
    intro l hl r
    cases l with
    | nil =>
      have : r.filter (fun y => y ∉ ([] : List String)) = r :=
        List.filter_eq_self.mpr (by simp)
      simp [pyDedup, pyDedupAux, this]
    | cons x xs =>
      have hlt : (xs.filter (fun y => y ≠ x)).length < n := by
        have := List.length_filter_le (fun y => y ≠ x) xs
        simp only [List.length_cons] at hl
        omega
      rw [List.cons_append, pyDedup_cons, pyDedup_cons, List.filter_append,
        ih _ hlt _ rfl, List.cons_append]
      congr 2
      rw [List.filter_filter]
      congr 1
      refine List.filter_congr ?_
      intro y _
      by_cases hyx : y = x <;> by_cases hyxs : y ∈ xs <;>
        simp [hyx, hyxs, List.mem_filter]
  intro l r
  exact key l.length l rfl r

/-- Splitting a deduplicated, truncated concatenation into the part
drawn from the left list and the part outside it. -/
theorem pyDedup_take_split (lits extra : List String) (cap m : Nat)
    (hcap : cap ≤ m) :
    ((pyDedup (lits ++ extra)).take cap).length ≤ m ∧
    ((pyDedup (lits ++ extra)).take cap).Nodup ∧
    ∃ l1 l2, (pyDedup (lits ++ extra)).take cap = l1 ++ l2 ∧
      (∀ a ∈ l1, a ∈ lits) ∧ (∀ b ∈ l2, b ∉ lits) := by
  refine ⟨le_trans (List.length_take_le _ _) hcap,
    List.Nodup.sublist (List.take_sublist _ _) (nodup_pyDedup _), ?_⟩
  rw [pyDedup_append, List.take_append_eq_append_take]
  refine ⟨_, _, rfl, ?_, ?_⟩
  · intro a ha
    exact (mem_pyDedup _ _).mp (List.take_subset _ _ ha)
  · intro b hb
    have hmem := (mem_pyDedup _ _).mp (List.take_subset _ _ hb)
    rw [List.mem_filter] at hmem
    simpa using hmem.2

/-- **C5.**  For every text, platform, bound and trending flag,
`generate_hashtags` returns at most `max_count` tags, pairwise distinct
under case-sensitive comparison, and every returned tag extracted
literally as `#tag` from the text precedes every tag that is not. -/
theorem generate_hashtags_bounded_distinct_ordered (T platform : String)
    (m : Nat) (it : Bool) :
    (generateHashtags T platform m it).length ≤ m ∧
    (generateHashtags T platform m it).Nodup ∧
    ∃ l1 l2, generateHashtags T platform m it = l1 ++ l2 ∧
      (∀ a ∈ l1, a ∈ litTags T) ∧ (∀ b ∈ l2, b ∉ litTags T) := by
  simp only [generateHashtags]
  split_ifs with h1 h2 h3
  · exact pyDedup_take_split _ _ _ _ (Nat.min_le_left _ _)
  · exact pyDedup_take_split _ _ _ _ (Nat.min_le_left _ _)
  · exact pyDedup_take_split _ _ _ _ (Nat.min_le_left _ _)
  · exact pyDedup_take_split _ _ _ _ le_rfl

/-- Counterexample for C6: on platform `"facebook"` no frequency-derived
candidate is appended — the most frequent long word `"banana"` is absent
even though only one tag (far fewer than `max_hashtags`) is returned. -/
theorem generate_hashtags_facebook_no_frequency :
    generateHashtags "#Code banana banana" "facebook" 10 true = ["Code"] ∧
    "banana" ∈ mostCommon (pyWords "#Code banana banana") 5 ∧
    "banana" ∉ generateHashtags "#Code banana banana" "facebook" 10 true :=
  ⟨by decide, by decide, by decide⟩

/-- **C6 (amended).**  Frequency-derived candidates are appended only for
`instagram`, `twitter` and `linkedin`; for any other platform the result
consists exactly of the deduplicated literal `#`-tags of the text,
truncated to `max_count` (all of them whenever they fit). -/
theorem generate_hashtags_platform_branches (T p : String) (m : Nat) (it : Bool)
    (h1 : p ≠ "instagram") (h2 : p ≠ "twitter") (h3 : p ≠ "linkedin") :
    (∀ x ∈ generateHashtags T p m it, x ∈ litTags T) ∧
    ((pyDedup (litTags T)).length ≤ m →
      ∀ x, x ∈ generateHashtags T p m it ↔ x ∈ litTags T) := by
  have hgh : generateHashtags T p m it = (pyDedup (litTags T ++ [])).take m := by
    simp only [generateHashtags, if_neg h1, if_neg h2, if_neg h3]
  rw [List.append_nil] at hgh
  constructor
  · intro x hx
    rw [hgh] at hx
    exact (mem_pyDedup _ _).mp (List.take_subset _ _ hx)
  · intro hlen x
    rw [hgh, List.take_of_length_le hlen, mem_pyDedup]

/-- Witness for the amended C6 on a concrete non-special platform. -/
theorem generate_hashtags_platform_branches_witness :
    (("facebook" : String) ≠ "instagram") ∧ (("facebook" : String) ≠ "twitter") ∧
    (("facebook" : String) ≠ "linkedin") ∧
    ((∀ x ∈ generateHashtags "#Lean proofs proofs" "facebook" 10 true,
        x ∈ litTags "#Lean proofs proofs") ∧
     ((pyDedup (litTags "#Lean proofs proofs")).length ≤ 10 →
       ∀ x, x ∈ generateHashtags "#Lean proofs proofs" "facebook" 10 true ↔
         x ∈ litTags "#Lean proofs proofs")) :=
  ⟨by decide, by decide, by decide,
    generate_hashtags_platform_branches "#Lean proofs proofs" "facebook" 10 true
      (by decide) (by decide) (by decide)⟩

/-! ## Lemmas about Python dict assignment -/

theorem lookup_map_update_ne {α : Type} (t : List (String × α)) (k k' : String)
    (v : α) (h : k' ≠ k) :
    (t.map (fun kv => if kv.1 = k then (k, v) else kv)).lookup k' = t.lookup k' := by
  induction t with
  | nil => rfl
  | cons kv t ih =>
    obtain ⟨a, b⟩ := kv
    rw [List.map_cons]
    by_cases hk : a = k
    · simp only [if_pos hk, List.lookup_cons]
      have h1 : (k' == k) = false := by simpa using h
      have h2 : (k' == a) = false := by simp [hk, h]
      rw [h1, h2, ih]
    · simp only [if_neg hk, List.lookup_cons]
      by_cases h' : k' = a
      · have : (k' == a) = true := by simpa using h'
        rw [this]
      · have : (k' == a) = false := by simpa using h'
        rw [this, ih]

theorem lookup_map_update_self {α : Type} (t : List (String × α)) (k : String)
    (v : α) (h : t.any (fun kv => kv.1 = k)) :
    (t.map (fun kv => if kv.1 = k then (k, v) else kv)).lookup k = some v := by
  induction t with
  | nil => simp at h
  | cons kv t ih =>
    obtain ⟨a, b⟩ := kv
    rw [List.map_cons]
    by_cases hk : a = k
    · simp [if_pos hk, List.lookup_cons]
    · have h' : t.any (fun kv => kv.1 = k) := by
        rcases List.any_eq_true.mp h with ⟨x, hx, hxk⟩
        rcases List.mem_cons.mp hx with rfl | hx
        · exact absurd (by simpa using hxk) hk
        · exact List.any_eq_true.mpr ⟨x, hx, hxk⟩
      have h2 : (k == a) = false := by simpa using Ne.symm hk
      rw [if_neg hk, List.lookup_cons, h2]
      exact ih h'

theorem lookup_append_pair {α : Type} (d : List (String × α)) (k k' : String)
    (v : α) :
    (d ++ [(k, v)]).lookup k' =
      match d.lookup k' with
      | some w => some w
      | none => if k' = k then some v else none := by
  induction d with
  | nil =>
    by_cases h : k' = k
    · simp [List.lookup_cons, h]
    · have : (k' == k) = false := by simpa using h
      simp [List.lookup_cons, this, h]
  | cons kv t ih =>
    obtain ⟨a, b⟩ := kv
    rw [List.cons_append, List.lookup_cons, List.lookup_cons]
    by_cases h' : k' = a
    · have : (k' == a) = true := by simpa using h'
      rw [this]
    · have : (k' == a) = false := by simpa using h'
      rw [this, ih]

theorem lookup_none_of_any_false {α : Type} (d : List (String × α)) (k : String)
    (h : d.any (fun kv => kv.1 = k) = false) : d.lookup k = none := by
  induction d with
  | nil => rfl
  | cons kv t ih =>
    obtain ⟨a, b⟩ := kv
    simp only [List.any_cons, Bool.or_eq_false_iff] at h
    have hk : a ≠ k := by simpa using h.1
    have h2 : (k == a) = false := by simpa using Ne.symm hk
    rw [List.lookup_cons, h2]
    exact ih h.2

theorem lookup_dictInsert {α : Type} (d : List (String × α)) (k k' : String)
    (v : α) :
    (dictInsert d k v).lookup k' = if k' = k then some v else d.lookup k' := by
  unfold dictInsert
  by_cases hany : d.any (fun kv => kv.1 = k)
  · rw [if_pos hany]
    by_cases h : k' = k
    · rw [if_pos h, h]
      exact lookup_map_update_self d k v hany
    · rw [if_neg h]
      exact lookup_map_update_ne d k k' v h
  · rw [if_neg hany, lookup_append_pair]
    simp only [Bool.not_eq_true] at hany
    by_cases h : k' = k
    · subst h
      rw [lookup_none_of_any_false d k' hany]
    · rw [if_neg h]
      cases d.lookup k' <;> simp [h]

theorem bind_ok {ε α β : Type} (a : α) (k : α → Except ε β) :
    (Except.ok a : Except ε α) >>= k = k a := rfl

/-! ## Lemmas about the platform loop of create_post -/

theorem loopStep_results (env : Env) (post : Post) (sched : Option String)
    (st : LoopState) (p : String) :
    (loopStep env post sched st p).results =
      dictInsert st.results p (entryFor env post sched p) := by
  cases hc : env.client p with
  | none => simp [loopStep, entryFor, hc]
  | some client =>
    cases sched with
    | none =>
      cases hr : client.create_post post <;> simp [loopStep, entryFor, hc, hr]
    | some s =>
      cases hps : env.parseISO s <;> simp [loopStep, entryFor, hc, hps]

theorem loopStep_calendar_some (env : Env) (post : Post) (s : String) (t : Nat)
    (st : LoopState) (p : String) (hp : env.parseISO s = .ok t) :
    (loopStep env post (some s) st p).calendar =
      st.calendar ++
        (if (env.client p).isSome then
          [{ id := env.uuid st.ctr, post := post, platform := p,
             scheduled_time := t }]
        else []) := by
  cases hc : env.client p with
  | none => simp [loopStep, hc]
  | some client => simp [loopStep, hc, hp]

theorem foldl_loopStep_lookup (env : Env) (post : Post) (sched : Option String) :
    ∀ (ps : List String) (acc : LoopState) (p : String),
      ((ps.foldl (loopStep env post sched) acc).results).lookup p =
        if p ∈ ps then some (entryFor env post sched p)
        else acc.results.lookup p := by
  intro ps
  induction ps with
  | nil => intro acc p; simp
  | cons q qs ih =>
    intro acc p
    rw [List.foldl_cons, ih]
    by_cases hin : p ∈ qs
    · rw [if_pos hin, if_pos (List.mem_cons.mpr (Or.inr hin))]
    · rw [if_neg hin, loopStep_results, lookup_dictInsert]
      by_cases hpq : p = q
      · rw [if_pos hpq, if_pos (List.mem_cons.mpr (Or.inl hpq)), hpq]
      · rw [if_neg hpq, if_neg (by simp [hpq, hin])]

theorem foldl_loopStep_calendar (env : Env) (post : Post) (s : String) (t : Nat)
    (hp : env.parseISO s = .ok t) :
    ∀ (ps : List String) (acc : LoopState),
      ∃ added : List ScheduledPost,
        (ps.foldl (loopStep env post (some s)) acc).calendar =
          acc.calendar ++ added ∧
        added.map (fun e => e.platform) =
          ps.filter (fun p => (env.client p).isSome) ∧
        ∀ e ∈ added, e.post = post ∧ e.scheduled_time = t := by
  intro ps
  induction ps with
  | nil => intro acc; exact ⟨[], by simp, by simp, by simp⟩
  | cons q qs ih =>
    intro acc
    obtain ⟨added, h1, h2, h3⟩ := ih (loopStep env post (some s) acc q)
    rw [List.foldl_cons]
    cases hc : env.client q with
    | none =>
      refine ⟨added, ?_, ?_, h3⟩
      · rw [h1, loopStep_calendar_some env post s t acc q hp, hc]
        simp
      · rw [h2, List.filter_cons]
        simp [hc]
    | some client =>
      refine ⟨{ id := env.uuid acc.ctr, post := post, platform := q,
                scheduled_time := t } :: added, ?_, ?_, ?_⟩
      · rw [h1, loopStep_calendar_some env post s t acc q hp, hc]
        simp
      · rw [List.map_cons, h2, List.filter_cons]
        simp [hc]
      · intro e he
        rcases List.mem_cons.mp he with rfl | he
        · exact ⟨rfl, rfl⟩
        · exact h3 e he

/-- `create_post` on inputs whose media processing and schedule parsing
succeed: the platform loop runs and its outcome is returned. -/
theorem createPost_ok (env : Env) (st : ServerState) (args : CreateArgs)
    {assets : List MediaAsset} {ts : Option Nat}
    (hm : processMedia env args.platforms args.content.media = .ok assets)
    (hts : parseOptSchedule env (resolveSchedule env args) = .ok ts)
    (hv : validatePlatforms args.platforms = .ok ()) :
    createPost env st args = .ok
      (⟨(loopRun env st args assets ts).results, args.content.text,
        effectiveHashtags args, assets.length⟩,
       ⟨(loopRun env st args assets ts).calendar,
        (loopRun env st args assets ts).ctr⟩) := by
  simp only [createPost, hm, hts, hv, bind_ok]
  rfl

/-! ## C1: the not-configured entry of create_post -/

/-- Counterexample for C1 as stated: at its own example input, the
platform string `"nonexistent"` is not a `PlatformType` value, so the
`Post(platforms=["nonexistent"])` construction (server.py line 356)
raises pydantic `ValidationError` before the platform loop, even for
this media-free, schedule-free request — `create_post` raises instead of
returning a results map. -/
theorem create_post_nonexistent_raises_validation :
    createPost baseEnv st0 nonexistentArgs =
      .error platformValidationError := rfl

/-- **C1 (amended).**  `Post.platforms : List[PlatformType]` is
pydantic-validated, so a requested platform name outside the enum (in
particular `"nonexistent"`) makes `create_post` raise.  For requested
platforms that are all valid enum values, whenever the pre-dispatch
steps succeed (media optimization and schedule parsing), `create_post`
returns normally; every requested platform with no registered capability
gets the `success: false` entry whose error message contains
`"not configured"`, and every requested platform's entry is exactly its
own per-platform dispatch outcome, unaffected by the others. -/
theorem create_post_not_configured (env : Env) (st : ServerState)
    (args : CreateArgs) (p : String)
    (hp : p ∈ args.platforms)
    (hnc : env.client p = none)
    (hv : validatePlatforms args.platforms = .ok ())
    (hm : ∃ assets, processMedia env args.platforms args.content.media = .ok assets)
    (hts : ∃ ts, parseOptSchedule env (resolveSchedule env args) = .ok ts) :
    ∃ resp st', createPost env st args = .ok (resp, st') ∧
      resp.results.lookup p =
        some (.failure ("Platform " ++ p ++ " not configured")) ∧
      (∃ pre suf : String,
        "Platform " ++ p ++ " not configured" = pre ++ "not configured" ++ suf) ∧
      (∃ post : Post, ∀ q ∈ args.platforms,
        resp.results.lookup q =
          some (entryFor env post (resolveSchedule env args) q)) := by
  obtain ⟨assets, hm⟩ := hm
  obtain ⟨ts, hts⟩ := hts
  rw [createPost_ok env st args hm hts hv]
  refine ⟨_, _, rfl, ?_, ?_, ?_⟩
  · rw [loopRun, foldl_loopStep_lookup, if_pos hp]
    unfold entryFor
    rw [hnc]
  · refine ⟨"Platform " ++ p ++ " ", "", ?_⟩
    rw [String.append_empty, String.append_assoc, String.append_assoc]
    rfl
  · refine ⟨builtPost env st args assets ts, ?_⟩
    intro q hq
    rw [loopRun, foldl_loopStep_lookup, if_pos hq]

/-- Witness for the amended C1 on a concrete media-free invocation with
the valid but never-registrable platform `"tiktok"`. -/
theorem create_post_not_configured_witness :
    ("tiktok" ∈ tiktokArgs.platforms) ∧
    (baseEnv.client "tiktok" = none) ∧
    (validatePlatforms tiktokArgs.platforms = .ok ()) ∧
    (∃ assets,
      processMedia baseEnv tiktokArgs.platforms
        tiktokArgs.content.media = .ok assets) ∧
    (∃ ts, parseOptSchedule baseEnv
      (resolveSchedule baseEnv tiktokArgs) = .ok ts) ∧
    (∃ resp st', createPost baseEnv st0 tiktokArgs = .ok (resp, st') ∧
      resp.results.lookup "tiktok" =
        some (.failure ("Platform " ++ "tiktok" ++ " not configured")) ∧
      (∃ pre suf : String,
        "Platform " ++ "tiktok" ++ " not configured" =
          pre ++ "not configured" ++ suf) ∧
      (∃ post : Post, ∀ q ∈ tiktokArgs.platforms,
        resp.results.lookup q =
          some (entryFor baseEnv post
            (resolveSchedule baseEnv tiktokArgs) q))) :=
  ⟨by decide, rfl, by rfl, ⟨[], by rfl⟩, ⟨none, by rfl⟩,
    create_post_not_configured baseEnv st0 tiktokArgs "tiktok"
      (by decide) rfl (by rfl) ⟨[], by rfl⟩ ⟨none, by rfl⟩⟩

/-! ## C9: calendar frame property of create_post -/

/-- Counterexample for C9 as stated: a scheduled request naming the
unconfigured, non-enum platform `"nonexistent"` makes `create_post`
raise pydantic `ValidationError` at the `Post` construction, before the
platform loop — there is no results map at all, hence no not-configured
entry for that platform (the calendar mutation never runs either). -/
theorem scheduled_nonexistent_raises_validation :
    createPost envTwitter st0
      { platforms := ["nonexistent"], content := { text := "hi" },
        schedule := some "2025-01-01T09:00:00" } =
      .error platformValidationError := rfl

/-- **C9 (amended).**  On a scheduled `create_post` whose requested
platforms are all valid `PlatformType` values and whose media processing
and schedule parsing succeed, the new calendar is the old one with
entries appended exactly for the requested platforms that have a
registered capability (in request order); a valid-but-unconfigured
requested platform contributes nothing to the calendar and receives the
not-configured error entry.  (A non-enum platform name instead makes
`create_post` raise before the loop, leaving the calendar unchanged and
producing no results map.) -/
theorem create_post_calendar_frame (env : Env) (st : ServerState)
    (args : CreateArgs) (s : String) (t : Nat)
    (hs : resolveSchedule env args = some s)
    (hparse : env.parseISO s = .ok t)
    (hv : validatePlatforms args.platforms = .ok ())
    (hm : ∃ assets, processMedia env args.platforms args.content.media = .ok assets) :
    ∃ resp st' added, createPost env st args = .ok (resp, st') ∧
      st'.scheduled_posts = st.scheduled_posts ++ added ∧
      added.map (fun e => e.platform) =
        args.platforms.filter (fun q => (env.client q).isSome) ∧
      (∀ e ∈ added, e.scheduled_time = t) ∧
      (∀ p ∈ args.platforms, env.client p = none →
        resp.results.lookup p =
          some (.failure ("Platform " ++ p ++ " not configured"))) := by
  obtain ⟨assets, hm⟩ := hm
  have hts : parseOptSchedule env (resolveSchedule env args) = .ok (some t) := by
    rw [hs]
    simp [parseOptSchedule, hparse, Except.map]
  rw [createPost_ok env st args hm hts hv]
  obtain ⟨added, h1, h2, h3⟩ :=
    foldl_loopStep_calendar env (builtPost env st args assets (some t)) s t hparse
      args.platforms ⟨[], st.scheduled_posts, st.uuids_drawn + 1⟩
  refine ⟨_, _, added, rfl, ?_, h2, fun e he => (h3 e he).2, ?_⟩
  · show (loopRun env st args assets (some t)).calendar = _
    rw [loopRun, hs, h1]
  · intro p hp hnone
    show (loopRun env st args assets (some t)).results.lookup p = _
    rw [loopRun, foldl_loopStep_lookup, if_pos hp]
    unfold entryFor
    rw [hnone]

/-- Witness for the amended C9: scheduling one post to configured
Twitter plus valid-but-unconfigured TikTok. -/
theorem create_post_calendar_frame_witness :
    (resolveSchedule envTwitter scheduledArgs = some "2025-01-01T09:00:00") ∧
    (envTwitter.parseISO "2025-01-01T09:00:00" = .ok 1735722000) ∧
    (validatePlatforms scheduledArgs.platforms = .ok ()) ∧
    (∃ assets, processMedia envTwitter scheduledArgs.platforms
      scheduledArgs.content.media = .ok assets) ∧
    (∃ resp st' added,
      createPost envTwitter st0 scheduledArgs = .ok (resp, st') ∧
      st'.scheduled_posts = st0.scheduled_posts ++ added ∧
      added.map (fun e => e.platform) =
        scheduledArgs.platforms.filter
          (fun q => (envTwitter.client q).isSome) ∧
      (∀ e ∈ added, e.scheduled_time = 1735722000) ∧
      (∀ p ∈ scheduledArgs.platforms, envTwitter.client p = none →
        resp.results.lookup p =
          some (.failure ("Platform " ++ p ++ " not configured")))) :=
  ⟨by rfl, by rfl, by rfl, ⟨[], by rfl⟩,
    create_post_calendar_frame envTwitter st0 scheduledArgs
      "2025-01-01T09:00:00" 1735722000 (by rfl) (by rfl) (by rfl)
      ⟨[], by rfl⟩⟩

/-! ## C4: create_post performs no content-length validation -/

/-- **C4 (amended).**  `utils.validate_post_content` does report
over-limit content as invalid, but `create_post` never invokes it: a
media-free scheduled request whose text exceeds Twitter's 280-character
limit is processed normally — the calendar gains an entry and the
results map records the schedule acknowledgment. -/
theorem create_post_skips_length_validation (env : Env) (st : ServerState)
    (args : CreateArgs) (s : String) (t : Nat)
    (hconf : (env.client "twitter").isSome)
    (hplat : args.platforms = ["twitter"])
    (hmedia : args.content.media = none)
    (hsched : args.schedule = some s)
    (hparse : env.parseISO s = .ok t)
    (hlong : args.content.text.length > 280) :
    (validatePostContent args.content.text "twitter").1 = false ∧
    ∃ resp st' e, createPost env st args = .ok (resp, st') ∧
      st'.scheduled_posts = st.scheduled_posts ++ [e] ∧
      e.platform = "twitter" ∧ e.scheduled_time = t ∧
      resp.results.lookup "twitter" = some (.scheduledAck s) := by
  constructor
  · have hch : charLimit "twitter" = 280 := rfl
    simp only [validatePostContent, hch, if_pos hlong]
  · have hm : processMedia env args.platforms args.content.media = .ok [] := by
      rw [hmedia]
      rfl
    have hs' : resolveSchedule env args = some s := by
      rw [resolveSchedule, hsched]
    have hts : parseOptSchedule env (resolveSchedule env args) = .ok (some t) := by
      rw [hs']
      simp [parseOptSchedule, hparse, Except.map]
    have hv : validatePlatforms args.platforms = .ok () := by
      rw [hplat]
      rfl
    rw [createPost_ok env st args hm hts hv]
    obtain ⟨client, hc⟩ := Option.isSome_iff_exists.mp hconf
    refine ⟨_, _,
      { id := env.uuid (st.uuids_drawn + 1),
        post := builtPost env st args [] (some t), platform := "twitter",
        scheduled_time := t }, rfl, ?_, rfl, rfl, ?_⟩
    · show (loopRun env st args [] (some t)).calendar = _
      rw [loopRun, hs', hplat]
      simp only [List.foldl_cons, List.foldl_nil]
      rw [loopStep_calendar_some env _ s t _ _ hparse, hc]
      simp
    · show (loopRun env st args [] (some t)).results.lookup "twitter" = _
      rw [loopRun, hplat, foldl_loopStep_lookup, if_pos (by decide), hs']
      simp [entryFor, hc, hparse]

set_option maxRecDepth 4000 in
/-- Witness for the amended C4: a 281-character scheduled tweet is
accepted and lands on the calendar. -/
theorem create_post_skips_length_validation_witness :
    ((envTwitter.client "twitter").isSome) ∧
    (overlongArgs.platforms = ["twitter"]) ∧
    (overlongArgs.content.media = none) ∧
    (overlongArgs.schedule = some "2025-01-01T09:00:00") ∧
    (envTwitter.parseISO "2025-01-01T09:00:00" = .ok 1735722000) ∧
    (overlongArgs.content.text.length > 280) ∧
    ((validatePostContent overlongArgs.content.text "twitter").1 = false ∧
     ∃ resp st' e, createPost envTwitter st0 overlongArgs = .ok (resp, st') ∧
       st'.scheduled_posts = st0.scheduled_posts ++ [e] ∧
       e.platform = "twitter" ∧ e.scheduled_time = 1735722000 ∧
       resp.results.lookup "twitter" =
         some (.scheduledAck "2025-01-01T09:00:00")) :=
  ⟨by rfl, by rfl, by rfl, by rfl, by rfl, by decide,
    create_post_skips_length_validation envTwitter st0 overlongArgs
      "2025-01-01T09:00:00" 1735722000 (by rfl) (by rfl) (by rfl) (by rfl)
      (by rfl) (by decide)⟩

set_option maxRecDepth 4000 in
/-- Counterexample for C4 as stated: with Twitter configured, a
281-character scheduled post is not rejected — the capability path runs
and a calendar entry is appended. -/
theorem overlong_post_scheduled_anyway :
    longText.length = 281 ∧ 280 < longText.length ∧
    createPost envTwitter st0 overlongArgs = .ok
      ({ results := [("twitter", .scheduledAck "2025-01-01T09:00:00")],
         text := longText, hashtags := ["tag"], media_count := 0 },
       { scheduled_posts :=
           [{ id := "id",
              post := { id := "id", text := longText, media := [],
                        hashtags := ["tag"], platforms := ["twitter"],
                        scheduled_time := some 1735722000 },
              platform := "twitter", scheduled_time := 1735722000 }],
         uuids_drawn := 2 }) :=
  ⟨by decide, by decide, by rfl⟩

/-! ## C2: schedule_posts with optimize_spacing raises NameError -/

/-- **C2 is a code bug.**  server.py line 7 imports only `datetime` and
`timezone`, so the spacing branch of `schedule_posts` (line 468) raises
`NameError` on the unbound name `timedelta` before assigning any
timestamp or delegating any post: every invocation with
`optimize_spacing` and more than one post fails. -/
theorem schedule_posts_spacing_name_error (env : Env) (st : ServerState)
    (a b : CreateArgs) :
    schedulePosts env st { posts := [a, b], optimize_spacing := true } =
      .error "NameError: name timedelta is not defined" := rfl

/-! ## C3: get_analytics aggregates the wrong key level -/

/-- **C3 is a code bug.**  A platform whose analytics succeed with 1000
impressions and 50 engagement yields `Analytics.dict()`, which nests the
counts under the top-level key `"metrics"`; the aggregation loop of
`get_analytics` (lines 433-442) looks for top-level
`"impressions"`/`"engagement"` keys, finds none, and reports totals 0
and engagement rate 0 instead of 1000/50/0.05. -/
theorem get_analytics_aggregation_always_zero :
    getAnalytics envAnalytics { platforms := ["twitter"] } =
      { platforms := [("twitter", JVal.obj
          [("platform", .str "twitter"),
           ("metrics", .obj [("impressions", .num 1000),
                             ("engagement", .num 50)]),
           ("date_range", .null), ("post_ids", .null),
           ("demographic_data", .null), ("top_content", .null)])],
        aggregated := { total_impressions := 0, total_engagement := 0,
                        engagement_rate := 0 } } := rfl

/-! ## C10: handle_call_tool never propagates an exception -/

/-- **C10.**  `handle_call_tool` always returns exactly one text content
item; whenever dispatch or the selected handler raises (in particular
for an unknown tool name), that item is the JSON object with exactly the
fields `error` (the exception message) and `tool` (the requested
name). -/
theorem handle_call_tool_wraps_errors (env : Env) (st : ServerState)
    (name : String) (raw : RawArgs) :
    (handleCallTool env st name raw).length = 1 ∧
    (∀ e, callToolInner env st name raw = .error e →
      handleCallTool env st name raw = [.errObj e name]) ∧
    (name ∉ ["create_post", "get_analytics", "schedule_posts",
        "generate_hashtags", "optimize_media", "get_trending",
        "manage_calendar"] →
      handleCallTool env st name raw =
        [.errObj ("Unknown tool: " ++ name) name]) := by
  refine ⟨?_, ?_, ?_⟩
  · unfold handleCallTool
    cases callToolInner env st name raw with
    | ok p => obtain ⟨v, st'⟩ := p; rfl
    | error e => rfl
  · intro e he
    unfold handleCallTool
    rw [he]
  · intro hn
    simp only [List.mem_cons, List.not_mem_nil, or_false, not_or] at hn
    obtain ⟨h1, h2, h3, h4, h5, h6, h7⟩ := hn
    have hinner : callToolInner env st name raw =
        .error ("Unknown tool: " ++ name) := by
      unfold callToolInner
      rw [if_neg h1, if_neg h2, if_neg h3, if_neg h4, if_neg h5, if_neg h6,
        if_neg h7]
    unfold handleCallTool
    rw [hinner]

/-- Witness for C10: an unknown tool name is answered with the
`error`/`tool` object. -/
theorem handle_call_tool_wraps_errors_witness :
    (("bogus" : String) ∉ ["create_post", "get_analytics", "schedule_posts",
        "generate_hashtags", "optimize_media", "get_trending",
        "manage_calendar"]) ∧
    handleCallTool baseEnv st0 "bogus" {} =
      [.errObj ("Unknown tool: " ++ "bogus") "bogus"] :=
  ⟨by decide,
    (handle_call_tool_wraps_errors baseEnv st0 "bogus" {}).2.2 (by decide)⟩

end SMMcp
